import Mathlib

/-!
Verification of the export pipeline of `pkg/cmd/cli/cmd/export.go`.

The file embeds, as plain Lean definitions:
* the field sanitizer (modelled from the spec, since `defaultExporter` is
  declared outside the sources at hand);
* the orchestrator `RunExport`, translated statement by statement from the
  Go source, with the external collaborators (client config, namespace
  resolution, resource builder/fetch, version conversion, printers) passed
  in as an explicit environment and a trace of collaborator calls recorded.
-/

namespace ExportCmd

/-! ## Field sanitizer (modelled from the spec) -/

/-- Modelled from the spec: the generic metadata section of a resource
document (spec section 3, ResourceDocument).  The sanitizer's generic
routine clears the generated identifier, resource version and timestamp. -/
structure ObjectMeta where
  name : String
  ns : String
  labels : List (String × String)
  annots : List (String × String)
  uid : String
  resourceVersion : String
  creationTimestamp : String
  deriving DecidableEq, Repr

/-- Modelled from the spec: kind-specific sections of a document, as the
tagged union the design notes prescribe.  A network-service kind carries an
assigned virtual address, a workload-controller kind carries a revision
counter, and unknown kinds carry an opaque key-value tree. -/
inductive KindData where
  | service (clusterIP : String)
  | deploymentConfig (latestVersion : Nat)
  | unknown (fields : List (String × String))
  deriving DecidableEq, Repr

/-- Modelled from the spec: one resource document, with generic metadata, a
status subtree and kind-specific data. -/
structure Document where
  meta : ObjectMeta
  status : List (String × String)
  kindData : KindData
  deriving DecidableEq, Repr

/-- Modelled from the spec: the generic clearing routine applied to every
document: generated identifiers, resource version and timestamps are
cleared under both policies (spec section 4.1). -/
def sanitizeMeta (m : ObjectMeta) : ObjectMeta :=
  { m with uid := "", resourceVersion := "", creationTimestamp := "" }

/-- Modelled from the spec: `Sanitize(doc, policy)` for policies Exact
(`exact = true`) and Default (`exact = false`); never called under Raw.
The generic routine clears generated metadata and the status subtree;
kind-specific routines additionally clear environment-specific fields
(assigned address, revision counter) unless the policy is Exact
(spec sections 3 and 4.1). -/
def sanitize (d : Document) (exact : Bool) : Document :=
  let base : Document := { d with meta := sanitizeMeta d.meta, status := [] }
  match base.kindData with
  | .service _ =>
      if exact then base else { base with kindData := .service "" }
  | .deploymentConfig _ =>
      if exact then base else { base with kindData := .deploymentConfig 0 }
  | .unknown _ => base

/-! ## Orchestrator: shallow embedding of `RunExport` (export.go lines 81-174)

The orchestrator is parameterised over the document type `Doc` and the
collaborator error type `E`.  External collaborators are fields of `Env`;
every collaborator call that the claims reason about is also recorded in an
event trace returned alongside the outcome. -/

/-- Result of `exporter.Export(info.Object, exact)` beyond the in-place
mutation: either no error (`none`), the skip signal `ErrExportOmit`
(`some .omit`), or an ordinary error (`some (.fail e)`). -/
inductive ExpSignal (E : Type) where
  | omit
  | fail (e : E)
  deriving DecidableEq, Repr

/-- The command-line flags read at the top of `RunExport` (export.go lines
82-86, 95, 161-162). -/
structure Flags where
  selector : String
  allNamespaces : Bool
  exact : Bool
  asTemplate : String
  raw : Bool
  outputVersion : String
  output : String
  templateFile : String
  deriving DecidableEq, Repr

/-- Collaborator calls recorded by the embedding: construction of the
resource builder (export.go line 103), the fetch `b.Do()...Infos()`
(line 111), and each `exporter.Export` call (line 124). -/
inductive Event (Doc : Type) where
  | builder
  | fetch
  | exportCall (d : Doc) (exact : Bool)
  deriving DecidableEq, Repr

/-- The aggregated `runtime.Object` handed to the printer: a single object,
a `List`, or a `Template` with a name and its object list. -/
inductive RunObject (Doc : Type) where
  | single (d : Doc)
  | list (ds : List Doc)
  | template (name : String) (objects : List Doc)
  deriving DecidableEq, Repr

/-- Outcome of `RunExport`: success hands the aggregated object and the
chosen output format to the printer; the error constructors separate the
usage error (line 88), the empty-result error (line 117), the aggregate of
per-document sanitize errors (line 133), and pass-through collaborator
errors. -/
inductive RunOutcome (Doc E : Type) where
  | ok (result : RunObject Doc) (fmt : String)
  | usageError (msg : String)
  | emptyResult (msg : String)
  | aggregateError (errs : List E)
  | err (e : E)
  deriving DecidableEq, Repr

/-- External collaborators of `RunExport`.  `fetch` abstracts the whole
builder chain `b.Do().IntoSingular(&one).Infos()`, returning the ordered
document collection and the singular-selection indicator `one`.
`exportFn` is `exporter.Export`: the in-place mutation is modelled by
returning the mutated document next to the error signal.  `convDoc` is the
per-document version conversion used by `resource.AsVersionedObjects` and
`resource.AsVersionedObject`; `convertToVersion` is
`kapi.Scheme.ConvertToVersion` on the assembled template.  `getPrinter` and
`printObj` return `some e` exactly when the corresponding call fails. -/
structure Env (Doc E : Type) where
  clientVersion : Except E String
  defaultNs : Except E (String × Bool)
  fetch : Except E (List Doc × Bool)
  exportFn : Doc → Bool → Doc × Option (ExpSignal E)
  convDoc : Doc → String → Except E Doc
  convertToVersion : RunObject Doc → String → Except E (RunObject Doc)
  getPrinter : String → String → Option E
  printObj : RunObject Doc → Option E

variable {Doc E : Type}

/-- The sanitize pass of `RunExport` (export.go lines 121-131): iterate the
fetched documents; a document whose `Export` returns `ErrExportOmit` is
skipped (`continue`), a document whose `Export` returns another error has
that error collected, and every document not skipped — the error case
included, since the Go loop falls through to the append — is appended to
`newInfos`.  Returns `(newInfos, errs, events)`. -/
def sanitizePass (f : Doc → Bool → Doc × Option (ExpSignal E)) (exact : Bool) :
    List Doc → List Doc × List E × List (Event Doc)
  | [] => ([], [], [])
  | info :: rest =>
    let r := sanitizePass f exact rest
    match (f info exact).2 with
    | some .omit => (r.1, r.2.1, .exportCall info exact :: r.2.2)
    | some (.fail e) =>
        ((f info exact).1 :: r.1, e :: r.2.1, .exportCall info exact :: r.2.2)
    | none => ((f info exact).1 :: r.1, r.2.1, .exportCall info exact :: r.2.2)

/-- The non-skip errors that the sanitize pass collects, in fetch order. -/
def passErrors (f : Doc → Bool → Doc × Option (ExpSignal E)) (exact : Bool)
    (infos : List Doc) : List E :=
  infos.filterMap fun d =>
    match (f d exact).2 with
    | some (.fail e) => some e
    | _ => none

/-- `resource.AsVersionedObjects(infos, outputVersion)` (export.go line
140): convert every document to the output version; any failure fails the
whole call. -/
def asVersionedObjects (conv : Doc → String → Except E Doc)
    (infos : List Doc) (version : String) : Except E (List Doc) :=
  infos.mapM fun d => conv d version

/-- Modelled from the spec: `resource.AsVersionedObject(infos, !one,
outputVersion)` (export.go line 153) is vendored kubectl code absent from
the sources at hand; spec section 4.3 (`List` aggregation): if there is
exactly one surviving document and the caller indicates a singular match
was requested (`forceList = false`), return that document directly as a
single object; otherwise wrap all surviving documents into an ordered list
container, preserving fetch order; every contained document is converted to
the requested output version first. -/
def asVersionedObject (conv : Doc → String → Except E Doc)
    (infos : List Doc) (forceList : Bool) (version : String) :
    Except E (RunObject Doc) :=
  match infos, forceList with
  | [d], false => (conv d version).map .single
  | infos, _ => (infos.mapM fun d => conv d version).map .list

/-- Output-format defaulting (export.go lines 160-168): the `--output` flag
if set; otherwise "template" when a `--template` file is given, and "yaml"
when not. -/
def chooseOutputFormat (output templateFile : String) : String :=
  let outputFormat := output
  let outputFormat :=
    if outputFormat.isEmpty && !templateFile.isEmpty then "template"
    else outputFormat
  if outputFormat.isEmpty then "yaml" else outputFormat

/-- The aggregation step of `RunExport` (export.go lines 138-158): a
`Template` wrapping the full surviving collection when `--as-template` is
set, otherwise a single object or a `List` via `asVersionedObject`. -/
def aggregateResult (env : Env Doc E) (fl : Flags) (outputVersion : String)
    (infos : List Doc) (one : Bool) : Except E (RunObject Doc) :=
  if fl.asTemplate.length > 0 then
    match asVersionedObjects env.convDoc infos outputVersion with
    | .error e => .error e
    | .ok objects =>
        env.convertToVersion (.template fl.asTemplate objects) outputVersion
  else
    asVersionedObject env.convDoc infos (!one) outputVersion

/-- Aggregation followed by the printer hand-off (export.go lines 138-173):
build the aggregated object, choose the output format, obtain the printer
and print. -/
def aggregateAndPrint (env : Env Doc E) (fl : Flags) (outputVersion : String)
    (infos : List Doc) (one : Bool) : RunOutcome Doc E :=
  match aggregateResult env fl outputVersion infos one with
  | .error e => .err e
  | .ok result =>
    let fmt := chooseOutputFormat fl.output fl.templateFile
    match env.getPrinter fmt fl.templateFile with
    | some e => .err e
    | none =>
      match env.printObj result with
      | some e => .err e
      | none => .ok result fmt

/-- `RunExport` (export.go lines 81-174), statement by statement: flag
validation, client config, output-version defaulting, namespace
resolution, builder construction and fetch, the empty-fetch check, the
sanitize pass (skipped when `--raw`), aggregation and printing.  The
second component is the trace of collaborator calls. -/
def RunExport (env : Env Doc E) (fl : Flags) :
    RunOutcome Doc E × List (Event Doc) :=
  if fl.exact && fl.raw then
    (.usageError "--exact and --raw may not both be specified", [])
  else
    match env.clientVersion with
    | .error e => (.err e, [])
    | .ok clientVersion =>
      let outputVersion :=
        if fl.outputVersion.isEmpty then clientVersion else fl.outputVersion
      match env.defaultNs with
      | .error e => (.err e, [])
      | .ok _ =>
        match env.fetch with
        | .error e => (.err e, [.builder, .fetch])
        | .ok (infos, one) =>
          if infos.length = 0 then
            (.emptyResult "no resources found - nothing to export",
              [.builder, .fetch])
          else if !fl.raw then
            let r := sanitizePass env.exportFn fl.exact infos
            if r.2.1.length > 0 then
              (.aggregateError r.2.1, [.builder, .fetch] ++ r.2.2)
            else
              (aggregateAndPrint env fl outputVersion r.1 one,
                [.builder, .fetch] ++ r.2.2)
          else
            (aggregateAndPrint env fl outputVersion infos one,
              [.builder, .fetch])

/-! ## Concrete instances used by witnesses and counterexamples -/

/-- A concrete collaborator environment over `Doc = Nat`, `E = Nat` in
which every collaborator succeeds, `Export` mutates nothing and signals
nothing, and version conversion is the identity. -/
def envId : Env Nat Nat where
  clientVersion := .ok "v1"
  defaultNs := .ok ("testns", true)
  fetch := .ok ([1, 2], false)
  exportFn := fun d _ => (d, none)
  convDoc := fun d _ => .ok d
  convertToVersion := fun r _ => .ok r
  getPrinter := fun _ _ => none
  printObj := fun _ => none

/-- Flags with every field empty or false. -/
def flagsNone : Flags where
  selector := ""
  allNamespaces := false
  exact := false
  asTemplate := ""
  raw := false
  outputVersion := ""
  output := ""
  templateFile := ""

/-! ## Helper lemmas about the sanitize pass -/

theorem sanitizePass_append (f : Doc → Bool → Doc × Option (ExpSignal E))
    (exact : Bool) (xs ys : List Doc) :
    sanitizePass f exact (xs ++ ys) =
      ((sanitizePass f exact xs).1 ++ (sanitizePass f exact ys).1,
       (sanitizePass f exact xs).2.1 ++ (sanitizePass f exact ys).2.1,
       (sanitizePass f exact xs).2.2 ++ (sanitizePass f exact ys).2.2) := by
  induction xs with
  | nil => simp [sanitizePass]
  | cons a xs ih =>
    cases hs : (f a exact).2 with
    | none => simp [sanitizePass, hs, ih]
    | some s => cases s <;> simp [sanitizePass, hs, ih]

theorem sanitizePass_errs (f : Doc → Bool → Doc × Option (ExpSignal E))
    (exact : Bool) (infos : List Doc) :
    (sanitizePass f exact infos).2.1 = passErrors f exact infos := by
  induction infos with
  | nil => simp [sanitizePass, passErrors]
  | cons a xs ih =>
    simp only [sanitizePass, passErrors, List.filterMap_cons] at ih ⊢
    cases hs : (f a exact).2 with
    | none => simpa using ih
    | some s => cases s <;> simp [ih]

/-! ## Claim theorems -/

/-- Claim C9: Sanitize is idempotent: for every document and for each of
the two policies Exact and Default (here `exact : Bool`), applying
`sanitize` a second time with the same policy to an already-sanitized
document makes no further changes. -/
theorem sanitize_idempotent (d : Document) (exact : Bool) :
    sanitize (sanitize d exact) exact = sanitize d exact := by
  cases d with
  | mk meta status kd =>
    cases kd <;> cases exact <;> simp [sanitize, sanitizeMeta]

/-- Claim C5: a document whose `Export` call returns the skip signal is
excluded from the surviving list that aggregation later receives, its skip
adds nothing to the collected error list, and the remaining documents are
still processed: the pass on `pre ++ d :: post` yields the survivors and
errors of `pre` and `post` alone, while the event trace still records the
`Export` calls on `d` and on every document of `post`. -/
theorem sanitizePass_skip_excluded (f : Doc → Bool → Doc × Option (ExpSignal E))
    (exact : Bool) (pre post : List Doc) (d d' : Doc)
    (h : f d exact = (d', some .omit)) :
    (sanitizePass f exact (pre ++ d :: post)).1 =
      (sanitizePass f exact pre).1 ++ (sanitizePass f exact post).1 ∧
    (sanitizePass f exact (pre ++ d :: post)).2.1 =
      (sanitizePass f exact pre).2.1 ++ (sanitizePass f exact post).2.1 ∧
    (sanitizePass f exact (pre ++ d :: post)).2.2 =
      (sanitizePass f exact pre).2.2 ++
        .exportCall d exact :: (sanitizePass f exact post).2.2 := by
  refine ⟨?_, ?_, ?_⟩ <;> rw [sanitizePass_append] <;> simp [sanitizePass, h]

/-- An `Export` collaborator over `Doc = Nat`, `E = Nat` that returns the
skip signal exactly on document `1` and succeeds elsewhere. -/
def skipAtOne : Nat → Bool → Nat × Option (ExpSignal Nat) :=
  fun d _ => (d, if d = 1 then some .omit else none)

/-- Witness for C5 at a concrete input: document `1` is skipped between
surviving documents `0` and `2`. -/
theorem sanitizePass_skip_excluded_w :
    (sanitizePass skipAtOne false ([0] ++ 1 :: [2])).1 =
      (sanitizePass skipAtOne false [0]).1 ++
        (sanitizePass skipAtOne false [2]).1 ∧
    (sanitizePass skipAtOne false ([0] ++ 1 :: [2])).2.1 =
      (sanitizePass skipAtOne false [0]).2.1 ++
        (sanitizePass skipAtOne false [2]).2.1 ∧
    (sanitizePass skipAtOne false ([0] ++ 1 :: [2])).2.2 =
      (sanitizePass skipAtOne false [0]).2.2 ++
        .exportCall 1 false :: (sanitizePass skipAtOne false [2]).2.2 :=
  sanitizePass_skip_excluded skipAtOne false [0] [2] 1 1 (by simp [skipAtOne])

/-- Claim C1: if both the Exact and Raw flags are set, RunExport fails
immediately with the configuration (usage) error and the collaborator
trace is empty, so the resource builder is never constructed and the fetch
collaborator is never called. -/
theorem runExport_exact_raw_usage (env : Env Doc E) (fl : Flags)
    (he : fl.exact = true) (hr : fl.raw = true) :
    RunExport env fl =
      (.usageError "--exact and --raw may not both be specified", []) ∧
    Event.builder ∉ (RunExport env fl).2 ∧
    Event.fetch ∉ (RunExport env fl).2 := by
  have h : RunExport env fl =
      (.usageError "--exact and --raw may not both be specified", []) := by
    simp [RunExport, he, hr]
  exact ⟨h, by simp [h], by simp [h]⟩

/-- Flags with both Exact and Raw set. -/
def flagsExactRaw : Flags := { flagsNone with exact := true, raw := true }

/-- Witness for C1 at a concrete environment and flag set. -/
theorem runExport_exact_raw_usage_w :
    RunExport envId flagsExactRaw =
      (.usageError "--exact and --raw may not both be specified", []) ∧
    Event.builder ∉ (RunExport envId flagsExactRaw).2 ∧
    Event.fetch ∉ (RunExport envId flagsExactRaw).2 :=
  runExport_exact_raw_usage envId flagsExactRaw rfl rfl

/-- Claim C3: whenever the fetch returns zero documents (and the flags are
not the rejected Exact+Raw combination, i.e. the policy is one of Raw,
Exact, Default), RunExport fails with the explicit empty-result error
"no resources found - nothing to export", for every aggregation target and
output flag. -/
theorem runExport_empty_fetch (env : Env Doc E) (fl : Flags) (v : String)
    (ns : String × Bool) (one : Bool)
    (hnotboth : ¬(fl.exact = true ∧ fl.raw = true))
    (hcv : env.clientVersion = .ok v) (hns : env.defaultNs = .ok ns)
    (hf : env.fetch = .ok ([], one)) :
    (RunExport env fl).1 =
      .emptyResult "no resources found - nothing to export" := by
  have hb : (fl.exact && fl.raw) = false := by
    cases hfe : fl.exact <;> cases hfr : fl.raw <;> simp_all
  simp [RunExport, hb, hcv, hns, hf]

/-- Environment whose fetch returns zero documents. -/
def envEmptyFetch : Env Nat Nat := { envId with fetch := .ok ([], false) }

/-- Witness for C3 at a concrete environment with an empty fetch. -/
theorem runExport_empty_fetch_w :
    (RunExport envEmptyFetch flagsNone).1 =
      .emptyResult "no resources found - nothing to export" :=
  runExport_empty_fetch envEmptyFetch flagsNone "v1" ("testns", true) false
    (by simp [flagsNone]) rfl rfl rfl

/-- Claim C4: with policy Raw, the sanitize pass is skipped entirely: the
run equals the aggregation step applied directly to the fetched collection
`infos` (same documents, same order), and the collaborator trace is exactly
builder-then-fetch, containing no `exportCall` event, so the Exporter's
Export is never invoked on any document. -/
theorem runExport_raw_bypass (env : Env Doc E) (fl : Flags) (v : String)
    (ns : String × Bool) (infos : List Doc) (one : Bool)
    (hr : fl.raw = true) (he : fl.exact = false)
    (hcv : env.clientVersion = .ok v) (hns : env.defaultNs = .ok ns)
    (hf : env.fetch = .ok (infos, one)) (hne : infos ≠ []) :
    RunExport env fl =
      (aggregateAndPrint env fl
          (if fl.outputVersion.isEmpty then v else fl.outputVersion) infos one,
        [.builder, .fetch]) := by
  have hlen : ¬infos.length = 0 := by simpa using hne
  simp [RunExport, he, hr, hcv, hns, hf, hlen]

/-- Flags with Raw set. -/
def flagsRaw : Flags := { flagsNone with raw := true }

/-- Witness for C4 at a concrete environment and the Raw flag. -/
theorem runExport_raw_bypass_w :
    RunExport envId flagsRaw =
      (aggregateAndPrint envId flagsRaw
          (if flagsRaw.outputVersion.isEmpty then "v1"
           else flagsRaw.outputVersion) [1, 2] false,
        [.builder, .fetch]) :=
  runExport_raw_bypass envId flagsRaw "v1" ("testns", true) [1, 2] false
    rfl rfl rfl rfl rfl (by simp)

/-- Claim C6: when the policy is not Raw and the sanitize pass produces at
least one non-skip error, RunExport fails with the aggregate error listing
exactly `passErrors` — every collected per-document failure, in fetch
order — and the outcome is not a success, so no aggregation or output is
produced. -/
theorem runExport_aggregate_errors (env : Env Doc E) (fl : Flags) (v : String)
    (ns : String × Bool) (infos : List Doc) (one : Bool)
    (hr : fl.raw = false)
    (hcv : env.clientVersion = .ok v) (hns : env.defaultNs = .ok ns)
    (hf : env.fetch = .ok (infos, one)) (hne : infos ≠ [])
    (herr : passErrors env.exportFn fl.exact infos ≠ []) :
    (RunExport env fl).1 =
      .aggregateError (passErrors env.exportFn fl.exact infos) := by
  have hb : (fl.exact && fl.raw) = false := by simp [hr]
  have hlen : ¬infos.length = 0 := by simpa using hne
  have herrs := sanitizePass_errs env.exportFn fl.exact infos
  have hlp : 0 < (passErrors env.exportFn fl.exact infos).length :=
    List.length_pos.mpr herr
  simp [RunExport, hb, hcv, hns, hf, hlen, hr, herrs, hlp]

/-- Environment whose Export fails on every document with the document
itself as the error. -/
def envFailAll : Env Nat Nat :=
  { envId with exportFn := fun d _ => (d, some (.fail d)) }

/-- Witness for C6 at a concrete environment where both fetched documents
fail sanitation. -/
theorem runExport_aggregate_errors_w :
    (RunExport envFailAll flagsNone).1 =
      .aggregateError (passErrors envFailAll.exportFn flagsNone.exact [1, 2]) :=
  runExport_aggregate_errors envFailAll flagsNone "v1" ("testns", true) [1, 2]
    false rfl rfl rfl rfl (by simp) (by decide)

/-- An `Export` collaborator over `Doc = Nat`, `E = Nat` that fails with
error `7` on every document. -/
def failAlways : Nat → Bool → Nat × Option (ExpSignal Nat) :=
  fun d _ => (d, some (.fail 7))

/-- Claim C2, counterexample: document `0` produces the non-skip error `7`,
yet the surviving list built by the sanitize pass is `[0]`, not the empty
list the claim demands (the claim says an erroring document is not added to
the surviving set, which would leave the surviving set empty here).  The Go
loop falls through to `newInfos = append(newInfos, info)` after collecting
the error. -/
theorem sanitizePass_err_kept_cex :
    (failAlways 0 false).2 = some (.fail 7) ∧
    (sanitizePass failAlways false [0]).1 = [0] ∧
    (sanitizePass failAlways false [0]).1 ≠ [] :=
  ⟨rfl, rfl, by simp [sanitizePass, failAlways]⟩

/-- Claim C2 amended: the surviving list built by the sanitize pass
contains every fetched document that did not produce the skip signal — the
documents that produced a non-skip error included — in fetch order (each as
mutated by its `Export` call).  Erroring documents are thus appended too;
they only fail to reach aggregation because a non-empty error list makes
RunExport return the aggregate error before the surviving list is used. -/
theorem sanitizePass_survivors (f : Doc → Bool → Doc × Option (ExpSignal E))
    (exact : Bool) (infos : List Doc) :
    (sanitizePass f exact infos).1 =
      infos.filterMap (fun d =>
        match (f d exact).2 with
        | some ExpSignal.omit => none
        | _ => some (f d exact).1) := by
  induction infos with
  | nil => simp [sanitizePass]
  | cons a xs ih =>
    cases hs : (f a exact).2 with
    | none => simp [sanitizePass, hs, ih, List.filterMap_cons]
    | some s => cases s <;> simp [sanitizePass, hs, ih, List.filterMap_cons]

/-- Mapping the per-document version conversion over a collection succeeds
with the collection unchanged whenever the conversion is trivial on it. -/
theorem asVersionedObjects_id (conv : Doc → String → Except E Doc)
    (ver : String) (infos : List Doc) (hconv : ∀ d, conv d ver = .ok d) :
    asVersionedObjects conv infos ver = .ok infos := by
  unfold asVersionedObjects
  induction infos with
  | nil => rfl
  | cons a xs ih => rw [List.mapM_cons, hconv a, ih]; rfl

/-- A string other than the empty string has positive length. -/
theorem str_length_pos (x : String) (hx : x ≠ "") : 0 < x.length := by
  cases x with
  | mk data =>
    cases data with
    | nil => exact absurd rfl hx
    | cons c cs => simp [String.length]

/-- Claim C7: for N ≥ 1 surviving documents and a non-empty template name
`x`, ignoring version conversion (the conversion collaborators act as the
identity), the aggregated result is a Template whose name is `x` and whose
object payload is exactly the surviving collection in its original order;
moreover the aggregation step never consults the Exporter, so the template
wrapper itself is not sanitized. -/
theorem aggregateResult_template (env : Env Doc E) (fl : Flags) (ver : String)
    (infos : List Doc) (one : Bool) (x : String)
    (ht : fl.asTemplate = x) (hx : x ≠ "") (hn : 1 ≤ infos.length)
    (hconv : ∀ d, env.convDoc d ver = .ok d)
    (hct : ∀ r, env.convertToVersion r ver = .ok r) :
    aggregateResult env fl ver infos one = .ok (.template x infos) ∧
    ∀ f, aggregateResult { env with exportFn := f } fl ver infos one =
      aggregateResult env fl ver infos one := by
  have hx2 : 0 < x.length := str_length_pos x hx
  refine ⟨?_, fun f => rfl⟩
  simp only [aggregateResult, ht, gt_iff_lt, hx2, if_true,
    asVersionedObjects_id env.convDoc ver infos hconv, hct]

/-- Flags requesting the template aggregation target named "x". -/
def flagsTemplate : Flags := { flagsNone with asTemplate := "x" }

/-- Witness for C7: two surviving documents wrapped in a template named
"x". -/
theorem aggregateResult_template_w :
    aggregateResult envId flagsTemplate "v1" [1, 2] false = .ok (.template "x" [1, 2]) ∧
    ∀ f, aggregateResult { envId with exportFn := f } flagsTemplate "v1" [1, 2] false =
      aggregateResult envId flagsTemplate "v1" [1, 2] false :=
  aggregateResult_template envId flagsTemplate "v1" [1, 2] false "x"
    rfl (by decide) (by decide) (fun d => rfl) (fun r => rfl)

/-- Claim C8: with no template name, ignoring version conversion: if the
surviving collection is exactly one document and the fetch reported a
singular selection (`one = true`), the aggregated result is that document
itself, not wrapped in a list; otherwise it is the ordered list of all
surviving documents in fetch order. -/
theorem aggregateResult_single_or_list (env : Env Doc E) (fl : Flags)
    (ver : String) (infos : List Doc) (one : Bool)
    (ht : fl.asTemplate = "")
    (hconv : ∀ d, env.convDoc d ver = .ok d) :
    (∀ d, infos = [d] → one = true →
      aggregateResult env fl ver infos one = .ok (.single d)) ∧
    (¬(infos.length = 1 ∧ one = true) →
      aggregateResult env fl ver infos one = .ok (.list infos)) := by
  have hmap := asVersionedObjects_id env.convDoc ver infos hconv
  unfold asVersionedObjects at hmap
  have hTlen : ¬0 < fl.asTemplate.length := by rw [ht]; decide
  constructor
  · rintro d rfl rfl
    have h1 : asVersionedObject env.convDoc [d] (!true) ver =
        .ok (.single d) := by
      show (env.convDoc d ver).map RunObject.single = .ok (.single d)
      rw [hconv d]; rfl
    simpa [aggregateResult, hTlen] using h1
  · intro hnot
    have h1 : asVersionedObject env.convDoc infos (!one) ver =
        .ok (.list infos) := by
      unfold asVersionedObject
      split
      · simp_all
      · rw [hmap]; rfl
    simpa [aggregateResult, hTlen] using h1

/-- Witness for C8: a single surviving document with a singular selection
is returned unwrapped. -/
theorem aggregateResult_single_or_list_w :
    aggregateResult envId flagsNone "v1" [3] true = .ok (.single 3) :=
  (aggregateResult_single_or_list envId flagsNone "v1" [3] true rfl
    (fun d => rfl)).1 3 rfl rfl

/-- Claim C10: output-format defaulting: an explicit `--output` value is
used as given; an empty `--output` defaults to "yaml" when no `--template`
file is given and to "template" when one is. -/
theorem chooseOutputFormat_defaulting (output templateFile : String) :
    (output ≠ "" → chooseOutputFormat output templateFile = output) ∧
    (output = "" → templateFile = "" →
      chooseOutputFormat output templateFile = "yaml") ∧
    (output = "" → templateFile ≠ "" →
      chooseOutputFormat output templateFile = "template") := by
  refine ⟨?_, ?_, ?_⟩
  · intro h
    have h1 : output.isEmpty = false := by
      cases he : output.isEmpty with
      | false => rfl
      | true => exact absurd ((String.isEmpty_iff output).mp he) h
    simp [chooseOutputFormat, h1]
  · rintro rfl rfl
    have h0 : ("" : String).isEmpty = true := rfl
    simp [chooseOutputFormat, h0]
  · rintro rfl h
    have h1 : templateFile.isEmpty = false := by
      cases he : templateFile.isEmpty with
      | false => rfl
      | true => exact absurd ((String.isEmpty_iff templateFile).mp he) h
    have h0 : ("" : String).isEmpty = true := rfl
    have h2 : ("template" : String).isEmpty = false := rfl
    simp [chooseOutputFormat, h0, h1, h2]

/-- Witness for C10 at concrete flag values: all three defaulting cases. -/
theorem chooseOutputFormat_defaulting_w :
    chooseOutputFormat "json" "t.tmpl" = "json" ∧
    chooseOutputFormat "" "" = "yaml" ∧
    chooseOutputFormat "" "t.tmpl" = "template" :=
  ⟨(chooseOutputFormat_defaulting "json" "t.tmpl").1 (by decide),
   (chooseOutputFormat_defaulting "" "").2.1 rfl rfl,
   (chooseOutputFormat_defaulting "" "t.tmpl").2.2 rfl (by decide)⟩

end ExportCmd
